import Mathlib

/-
Verification development for the go-zfs command wrapper library
(outofforest/go-zfs). The library shells out to the external `zfs`
command line tool, parses its tabular stdout into dataset records, and
exposes filesystem / snapshot / pool operations on top of that.

Shallow embedding conventions used throughout this file:

* The operating system boundary (spawning the child process, its exit
  status, captured stdout and stderr) is modelled by an oracle of type
  `Env`: a function from (program name, argument vector, optional stdin
  contents) to an `ExecResult`.
* Go functions returning `(T, error)` pairs are modelled as pairs of
  `Option` values where the Go code really returns both, or as `Except`
  where only one side is ever populated.
* A Go runtime panic (out-of-range index or slice expression) is
  modelled as `Option.none` wrapped around the whole result.
* Go `uint64` is modelled as `Nat` together with an explicit `< 2 ^ 64`
  bound at the single place (ParseUint) where the width matters; no
  arithmetic is performed on parsed values afterwards.
* Go maps (`map[string]string`) are modelled as association lists
  `List (String × String)`; `delete` is `List.filter`, indexing is
  `List.lookup`.
* `strings.Fields` splits on runs of Unicode white space; the embedding
  splits on `Char.isWhitespace` (space, tab, CR, LF), which covers every
  character the tool can emit inside a row.
* `strings.Split(s, sep)` corresponds exactly to `String.splitOn`.

The repository snapshot contains several revisions of the same files.
Where revisions differ in behaviour both versions are embedded and the
names say which revision each definition comes from.
-/

set_option autoImplicit false

namespace GoZfs

/-- Outcome of executing the external tool once: either a normal exit
with captured stdout and stderr, or a failure (non-zero exit or spawn
error) carrying the error message and the captured stderr. -/
inductive ExecResult where
  | success (stdout stderr : String)
  | failure (errMsg stderr : String)
deriving DecidableEq, Repr

/-- The oracle modelling the OS: program name, argument vector and
optional stdin contents determine the outcome of the invocation. -/
def Env : Type := String → List String → Option String → ExecResult

/-- Decidable equality for `Except`, used to evaluate concrete results
in witnesses. -/
instance instDecidableEqExcept {α β : Type} [DecidableEq α] [DecidableEq β] :
    DecidableEq (Except α β)
  | .ok a, .ok b =>
    if h : a = b then .isTrue (by rw [h]) else .isFalse (by intro hc; cases hc; exact h rfl)
  | .error a, .error b =>
    if h : a = b then .isTrue (by rw [h]) else .isFalse (by intro hc; cases hc; exact h rfl)
  | .ok _, .error _ => .isFalse (by intro hc; cases hc)
  | .error _, .ok _ => .isFalse (by intro hc; cases hc)

/-- Split a character list at every character satisfying `p`. This is
the framing of Go `strings.Split` (for a one-character separator) and
the first phase of `strings.Fields`: there is always exactly one piece
more than there are separator occurrences, and pieces between adjacent
separators are empty. -/
def splitChars (p : Char → Bool) : List Char → List (List Char)
  | [] => [[]]
  | x :: xs =>
    let r := splitChars p xs
    if p x then [] :: r
    else
      match r with
      | h :: t => (x :: h) :: t
      | [] => [[x]]

/-- Embedding of Go `strings.Split(s, "\n")`. -/
def splitLines (s : String) : List String :=
  (splitChars (fun c => c == '\n') s.data).map (fun cs => String.mk cs)

/-- Embedding of Go `strings.Fields`: split a line on runs of white
space into its non-empty fields. -/
def goFields (l : String) : List String :=
  ((splitChars Char.isWhitespace l.data).map (fun cs => String.mk cs)).filter
    (fun s => !s.isEmpty)

/-- The stdout postprocessing shared by `command.Run` (src/zfs.go lines
58-68) and `zfsStdin` (part_005 lines 162-172): split the captured text
on newlines, drop the last line (the code comment says the last line is
always blank), and split every remaining line into fields. -/
def parseOutput (s : String) : List (List String) :=
  ((splitLines s).dropLast).map goFields

/-- Follows the words of the specification and of claim C5, for
comparison with `parseOutput`: split on newline, discard exactly one
trailing empty line when there is one, one row of fields per remaining
line. -/
def splitRowsClaimed (s : String) : List (List String) :=
  let lines := splitLines s
  let lines := if lines.getLast? = some "" then lines.dropLast else lines
  lines.map goFields

/-- The error type of the newest executor revision (part_005 lines
17-25, type `cmdError`): it has exactly two components, the wrapped
error and the captured stderr text. -/
structure CmdError where
  err : String
  stderr : String
deriving DecidableEq, Repr

/-- The error type of the older executor revision (src/zfs.go, type
`Error`): wrapped error, a debug command line, and captured stderr. -/
structure GoError where
  err : String
  debug : String
  stderr : String
deriving DecidableEq, Repr

/-- Embedding of `zfsStdin` (part_005 lines 151-173), the executor of
the newest revision. It returns the pair (structured stdout rows,
error) exactly as the Go function returns two values: on failure the
rows value is `none` (Go `nil`) and the error carries only the wrapped
error message and the stderr text. -/
def zfsStdin (env : Env) (stdin : Option String) (args : List String) :
    Option (List (List String)) × Option CmdError :=
  match env "zfs" args stdin with
  | .failure msg se => (none, some ⟨msg, se⟩)
  | .success out _ => (some (parseOutput out), none)

/-- Embedding of `zfs` (part_005 lines 147-149): `zfsStdin` with no
input stream. -/
def zfs (env : Env) (args : List String) :
    Option (List (List String)) × Option CmdError :=
  zfsStdin env none args

/-- Embedding of `zfsStdout` (part_005 lines 175-184): stdout is
forwarded to a caller-supplied sink, so only an optional error is
returned (`none` means success). -/
def zfsStdout (env : Env) (args : List String) : Option CmdError :=
  match env "zfs" args none with
  | .failure msg se => some ⟨msg, se⟩
  | .success _ _ => none

/-- Embedding of `command.Run` (src/zfs.go lines 22-69), the executor
of the older revision. `lookPath` models the path resolution done by
`exec.Command` (field `cmd.Path`); `hasStdoutSink` tells whether the
caller supplied an output sink (field `c.Stdout`). On failure the
returned `GoError` carries the wrapped error, the debug string built as
`strings.Join([]string{cmd.Path, joinedArgs[1:]}, " ")` — note the Go
code slices off the FIRST character of the joined argument line — and
the captured stderr. On success with a sink both results are `nil`. -/
def commandRun (lookPath : String → String) (env : Env) (cmdName : String)
    (stdin : Option String) (hasStdoutSink : Bool) (args : List String) :
    Option (List (List String)) × Option GoError :=
  let joinedArgs := String.intercalate " " (cmdName :: args)
  match env cmdName args stdin with
  | .failure msg se =>
      (none, some ⟨msg, String.intercalate " " [lookPath cmdName, joinedArgs.drop 1], se⟩)
  | .success out _ =>
      if hasStdoutSink then (none, none) else (some (parseOutput out), none)

/-- Embedding of `setString` (part_005 lines 27-33): the sentinel `-`
maps to the empty string, every other value is stored literally. -/
def setString (value : String) : String :=
  if value = "-" then "" else value

/-- The decimal value of a digit string, accumulated exactly as the Go
standard library loop does (n = n*10 + digit). -/
def digitsVal (s : String) : Nat :=
  s.data.foldl (fun n c => n * 10 + (c.toNat - '0'.toNat)) 0

/-- Contract of Go `strconv.ParseUint(value, 10, 64)`: the string must
be non-empty, all decimal digits, and denote a value below `2 ^ 64`;
otherwise an error (carrying the offending string) is returned. The Go
implementation detects overflow incrementally inside its loop, but the
classification of inputs into ok/error is exactly this one. -/
def parseUint10 (s : String) : Except String Nat :=
  if s.data = [] then .error s
  else if s.data.all Char.isDigit then
    if digitsVal s < 2 ^ 64 then .ok (digitsVal s) else .error s
  else .error s

/-- Embedding of `setUint` (part_005 lines 35-46): the sentinel `-`
stores zero, anything else goes through `strconv.ParseUint` base 10,
bit size 64, and a parse failure is propagated. -/
def setUint (value : String) : Except String Nat :=
  if value = "-" then .ok 0 else parseUint10 value

/-- Embedding of the `Info` dataset record (part_005 lines 48-62),
fields in Go declaration order. -/
structure Info where
  name : String
  origin : String
  used : Nat
  avail : Nat
  mountpoint : String
  compression : String
  written : Nat
  volsize : Nat
  logicalused : Nat
  usedbydataset : Nat
  quota : Nat
  referenced : Nat
deriving DecidableEq, Repr

/-- The fixed property column list (part_000 line 16 / part_005 line
15). -/
def dsPropList : List String :=
  ["name", "origin", "used", "available", "mountpoint", "compression",
   "volsize", "quota", "referenced", "written", "logicalused", "usedbydataset"]

/-- The comma-joined column list passed to the tool with `-o`. -/
def dsPropListOptions : String :=
  String.intercalate "," dsPropList

/-- Embedding of `parseLine` as it appears in src/zfs.go lines 134-171
and part_005 lines 86-123: NO width check is performed. The twelve
positional indexes are accessed in exactly the order the Go code
accesses them; an out-of-range access is a panic, modelled as `none`,
and a numeric parse failure is an error return, modelled as
`some (.error e)`. A later index is only touched after every earlier
parse step succeeded, exactly as in the Go control flow. -/
def parseLine (line : List String) : Option (Except String Info) :=
  match line.get? 0 with
  | none => none
  | some f0 =>
  match line.get? 1 with
  | none => none
  | some f1 =>
  match line.get? 2 with
  | none => none
  | some f2 =>
  match setUint f2 with
  | .error e => some (.error e)
  | .ok used =>
  match line.get? 3 with
  | none => none
  | some f3 =>
  match setUint f3 with
  | .error e => some (.error e)
  | .ok avail =>
  match line.get? 4 with
  | none => none
  | some f4 =>
  match line.get? 5 with
  | none => none
  | some f5 =>
  match line.get? 6 with
  | none => none
  | some f6 =>
  match setUint f6 with
  | .error e => some (.error e)
  | .ok volsize =>
  match line.get? 7 with
  | none => none
  | some f7 =>
  match setUint f7 with
  | .error e => some (.error e)
  | .ok quota =>
  match line.get? 8 with
  | none => none
  | some f8 =>
  match setUint f8 with
  | .error e => some (.error e)
  | .ok referenced =>
  match line.get? 9 with
  | none => none
  | some f9 =>
  match setUint f9 with
  | .error e => some (.error e)
  | .ok written =>
  match line.get? 10 with
  | none => none
  | some f10 =>
  match setUint f10 with
  | .error e => some (.error e)
  | .ok logicalused =>
  match line.get? 11 with
  | none => none
  | some f11 =>
  match setUint f11 with
  | .error e => some (.error e)
  | .ok usedbydataset =>
  some (.ok
    { name := setString f0
      origin := setString f1
      used := used
      avail := avail
      mountpoint := setString f4
      compression := setString f5
      written := written
      volsize := volsize
      logicalused := logicalused
      usedbydataset := usedbydataset
      quota := quota
      referenced := referenced })

/-- The structural mismatch message of part_000 line 142. -/
def widthMismatchMsg : String :=
  "output does not match what is expected on this platform"

/-- Embedding of `parseLine` as it appears in part_000 lines 138-178:
the row width is checked against the property list length first and a
mismatch is rejected with the structural mismatch error; the rest of
the body is identical to the unchecked revision. -/
def parseLineChecked (line : List String) : Option (Except String Info) :=
  if line.length ≠ dsPropList.length then some (.error widthMismatchMsg)
  else parseLine line

/-- Dataset-layer error: either a command error from the executor or a
numeric parse error from a row. In Go both travel in the same `error`
return value. -/
inductive ZErr where
  | cmd (e : CmdError)
  | parse (msg : String)
deriving DecidableEq, Repr

/-- The row loop of `info` (part_005 lines 74-83): parse each row in
order, stopping at the first error (or panic) without touching later
rows. -/
def parseLines : List (List String) → Option (Except String (List Info))
  | [] => some (.ok [])
  | l :: ls =>
    match parseLine l with
    | none => none
    | some (.error e) => some (.error e)
    | some (.ok i) =>
      match parseLines ls with
      | none => none
      | some (.error e) => some (.error e)
      | some (.ok is) => some (.ok (i :: is))

/-- The argument vector built by `info` (part_005 lines 65-68): a
depth-bounded listing with explicit property columns, plus the name
filter when it is non-empty. -/
def listArgs (t filter : String) (depth : Nat) : List String :=
  ["list", "-Hp", "-t", t, "-o", dsPropListOptions, "-d", toString depth]
    ++ (if filter ≠ "" then [filter] else [])

/-- Embedding of `info` (part_005 lines 64-84): run the listing, then
parse every row. Iterating over a `nil` rows slice performs no
iterations in Go, hence `Option.getD []`. -/
def infoList (env : Env) (t filter : String) (depth : Nat) :
    Option (Except ZErr (List Info)) :=
  match zfs env (listArgs t filter depth) with
  | (_, some e) => some (.error (.cmd e))
  | (out, none) =>
    match parseLines (out.getD []) with
    | none => none
    | some (.error e) => some (.error (.parse e))
    | some (.ok infos) => some (.ok infos)

/-- A ZFS filesystem handle (src/filesystem.go lines 63-66). -/
structure Filesystem where
  info : Info
deriving DecidableEq, Repr

/-- A ZFS snapshot handle (part_002 lines 333-336). -/
structure Snapshot where
  info : Info
deriving DecidableEq, Repr

/-- Embedding of `GetFilesystem` (src/filesystem.go lines 30-37): a
depth-0 listing filtered to the name, then an UNCHECKED access to row 0
of the result (`info[0]`); the panic on an empty result is `none`. -/
def GetFilesystem (env : Env) (name : String) : Option (Except ZErr Filesystem) :=
  match infoList env "filesystem" name 0 with
  | none => none
  | some (.error e) => some (.error e)
  | some (.ok infos) => (infos.get? 0).map (fun i => .ok ⟨i⟩)

/-- Embedding of `GetSnapshot` (part_002 lines 313-320): same shape as
`GetFilesystem` with the snapshot dataset type. -/
def GetSnapshot (env : Env) (name : String) : Option (Except ZErr Snapshot) :=
  match infoList env "snapshot" name 0 with
  | none => none
  | some (.error e) => some (.error e)
  | some (.ok infos) => (infos.get? 0).map (fun i => .ok ⟨i⟩)

/-- Embedding of `getProperty` (part_005 lines 216-223), the revision
present in the sources: it returns the raw `out[0][2]` cell, with both
index accesses unchecked (panic modelled as `none`). -/
def getProperty (env : Env) (name key : String) : Option (Except CmdError String) :=
  match zfs env ["get", "-H", key, name] with
  | (_, some e) => some (.error e)
  | (out, none) =>
    match (out.getD []).get? 0 with
    | none => none
    | some row => (row.get? 2).map (fun v => .ok v)

/-- Modelled from the spec: the current revision of `getProperty`
returning a (value, exists) pair is missing from the provided sources —
only its caller `Filesystem.GetProperty` (src/filesystem.go lines
87-89, result type `(string, bool, error)`) and the tests asserting the
exists flag are present. Section 4.3 of the spec says the get
invocation uses `-H`, that the tool reports the sentinel `-` for an
unset property, and that the model must surface existence distinctly
from an empty value instead of leaking the sentinel. The row and cell
accesses keep the unchecked `out[0][2]` shape of every source revision
of this helper. -/
def getPropertyExists (env : Env) (name key : String) :
    Option (Except CmdError (String × Bool)) :=
  match zfs env ["get", "-H", key, name] with
  | (_, some e) => some (.error e)
  | (out, none) =>
    match (out.getD []).get? 0 with
    | none => none
    | some row =>
      (row.get? 2).map (fun raw => .ok (if raw = "-" then ("", false) else (raw, true)))

/-- Embedding of `Children` (src/filesystem.go lines 109-120): a
depth-1 listing filtered to the own name, then the slice `infos[1:]`,
which panics when the listing produced no rows at all (a Go slice
expression beyond the capacity), modelled as `none`. -/
def Children (env : Env) (d : Filesystem) : Option (Except ZErr (List Filesystem)) :=
  match infoList env "filesystem" d.info.name 1 with
  | none => none
  | some (.error e) => some (.error e)
  | some (.ok infos) =>
    if infos.isEmpty then none
    else some (.ok ((infos.drop 1).map Filesystem.mk))

/-- Embedding of `propsSlice` (part_005 lines 125-132): every map entry
becomes the argument pair `-o key=value`. -/
def propsSlice (properties : List (String × String)) : List String :=
  (properties.map (fun kv => ["-o", kv.1 ++ "=" ++ kv.2])).flatten

/-- The argument vector and optional stdin built by `CreateFilesystem`
(src/filesystem.go lines 43-56): the reserved `password` entry is read
and deleted from the map, the remaining entries go through `propsSlice`
when the map is still non-empty, and a present password adds the three
encryption options and pipes the doubled newline-separated password as
stdin; the dataset name is appended last. -/
def createFilesystemArgs (name : String) (properties : List (String × String)) :
    List String × Option String :=
  let password? := properties.lookup "password"
  let props := properties.filter (fun kv => kv.1 != "password")
  let args := ["create"] ++ (if props.length > 0 then propsSlice props else [])
  match password? with
  | some password =>
      (args ++ ["-o", "encryption=on", "-o", "keylocation=prompt",
                "-o", "keyformat=passphrase"] ++ [name],
       some (password ++ "\n" ++ password))
  | none => (args ++ [name], none)

/-- Embedding of `CreateFilesystem` (src/filesystem.go lines 43-61).
The second component of the result is the caller-supplied properties
map as it stands after the call: the Go code mutates it in place with
`delete(properties, "password")` before the invocation, so the deletion
happens on the success path and on the failure path alike. On success
the filesystem is re-fetched by name. -/
def CreateFilesystem (env : Env) (name : String)
    (properties : List (String × String)) :
    (Option (Except ZErr Filesystem)) × List (String × String) :=
  match zfsStdin env (createFilesystemArgs name properties).2
      (createFilesystemArgs name properties).1 with
  | (_, some e) =>
      (some (.error (.cmd e)), properties.filter (fun kv => kv.1 != "password"))
  | (_, none) =>
      (GetFilesystem env name, properties.filter (fun kv => kv.1 != "password"))

/-- Events observable at the stream / process boundary of the streaming
operations: one child invocation, closing the caller-supplied output
writer, closing the caller-supplied input reader. -/
inductive Ev where
  | exec (args : List String)
  | closeOutput
  | closeInput
deriving DecidableEq, Repr

/-- Embedding of `Snapshot.Send` (part_002 lines 373-378): `defer
output.Close()` runs on every exit path, so the event trace always ends
with the close of the output handle, after the single send invocation. -/
def Send (env : Env) (d : Snapshot) : Option CmdError × List Ev :=
  (zfsStdout env ["send", d.info.name],
   [.exec ["send", d.info.name], .closeOutput])

/-- Embedding of `Snapshot.IncrementalSend` (part_002 lines 380-386):
like `Send` with the incremental base argument, same deferred close. -/
def IncrementalSend (env : Env) (base d : Snapshot) : Option CmdError × List Ev :=
  (zfsStdout env ["send", "-i", base.info.name, d.info.name],
   [.exec ["send", "-i", base.info.name, d.info.name], .closeOutput])

/-- Embedding of `ReceiveSnapshot` (part_002 lines 322-331): `defer
input.Close()` runs on every exit path — the early error return, the
successful path through `GetSnapshot`, and even a panic inside
`GetSnapshot` (running defers is part of Go panic unwinding), so every
trace ends with the close of the input handle. `input` is the contents
of the caller-supplied reader. -/
def ReceiveSnapshot (env : Env) (input : Option String) (name : String) :
    Option (Except ZErr Snapshot) × List Ev :=
  match zfsStdin env input ["receive", name] with
  | (_, some e) =>
      (some (.error (.cmd e)), [.exec ["receive", name], .closeInput])
  | (_, none) =>
      (GetSnapshot env name,
       [.exec ["receive", name], .exec (listArgs "snapshot" name 0), .closeInput])

/-- A thirteen-field row: one field more than the twelve-column
property list, the first twelve fields well formed. -/
def row13 : List String :=
  ["a", "-", "1", "2", "-", "off", "3", "4", "5", "6", "7", "8", "junk"]

/-- The `Info` record that the unchecked `parseLine` produces from
`row13`, silently ignoring the thirteenth field. -/
def row13Info : Info :=
  { name := "a", origin := "", used := 1, avail := 2, mountpoint := "",
    compression := "off", written := 6, volsize := 3, logicalused := 7,
    usedbydataset := 8, quota := 4, referenced := 5 }

/-- An environment in which every invocation fails, with a fixed error
message and stderr text. -/
def failEnvC2 : Env := fun _ _ _ => .failure "exit status 1" "permission denied"

/-- An environment in which every invocation succeeds with empty
captured stdout (zero output rows). -/
def emptyOkEnv : Env := fun _ _ _ => .success "" ""

/-- An environment whose every invocation prints one get-style row
whose third column is the sentinel `-`. -/
def getOutEnv : Env := fun _ _ _ => .success "tank mounted - -\n" ""

/-- An environment whose every invocation prints a two-row listing:
the dataset `t` followed by its child `t/c`. -/
def listTwoEnv : Env :=
  fun _ _ _ => .success "t - 1 2 - off 3 4 5 6 7 8\nt/c - 1 2 - off 3 4 5 6 7 8\n" ""

/-- The parsed `Info` of the first `listTwoEnv` row. -/
def infoT : Info :=
  { name := "t", origin := "", used := 1, avail := 2, mountpoint := "",
    compression := "off", written := 6, volsize := 3, logicalused := 7,
    usedbydataset := 8, quota := 4, referenced := 5 }

/-- The parsed `Info` of the second `listTwoEnv` row. -/
def infoTC : Info :=
  { name := "t/c", origin := "", used := 1, avail := 2, mountpoint := "",
    compression := "off", written := 6, volsize := 3, logicalused := 7,
    usedbydataset := 8, quota := 4, referenced := 5 }

/-- A concrete properties map holding the reserved password entry and
one ordinary entry. -/
def propsW : List (String × String) := [("password", "secret"), ("compression", "on")]

/- ------------------------------------------------------------------
Theorems. One theorem per claim, with counterexamples and witnesses
next to the claim they belong to.
------------------------------------------------------------------ -/

/-- The conditional guarding `propsSlice` inside `CreateFilesystem` is
redundant: the slice of an empty map is empty anyway. -/
theorem propsSlice_if_eq (l : List (String × String)) :
    (if l.length > 0 then propsSlice l else []) = propsSlice l := by
  cases l <;> simp [propsSlice]

/-- Every map entry contributes its `key=value` argument to
`propsSlice`. -/
theorem mem_propsSlice (l : List (String × String)) (kv : String × String)
    (h : kv ∈ l) : (kv.1 ++ "=" ++ kv.2) ∈ propsSlice l := by
  unfold propsSlice
  exact List.mem_flatten.mpr
    ⟨["-o", kv.1 ++ "=" ++ kv.2], List.mem_map_of_mem _ h, by simp⟩

/-- Looking up a key other than `password` is unaffected by deleting
the `password` entry. -/
theorem lookup_filter_ne (props : List (String × String)) (k : String)
    (hk : k ≠ "password") :
    (props.filter (fun kv => kv.1 != "password")).lookup k = props.lookup k := by
  induction props with
  | nil => rfl
  | cons kv rest ih =>
    by_cases hhead : kv.1 = "password"
    · have hne : (k == kv.1) = false := by
        simp [hhead]
        exact hk
      have hkp : (k == "password") = false := by
        simp
        exact hk
      simp [List.filter_cons, hhead, List.lookup, hne, hkp, ih]
    · by_cases hkk : k = kv.1
      · simp [List.filter_cons, hhead, List.lookup, hkk]
      · simp [List.filter_cons, hhead, List.lookup, hkk, ih]

/-- After deleting the `password` entry, looking up `password` finds
nothing. -/
theorem lookup_filter_password_none (props : List (String × String)) :
    (props.filter (fun kv => kv.1 != "password")).lookup "password" = none := by
  induction props with
  | nil => rfl
  | cons kv rest ih =>
    by_cases hhead : kv.1 = "password"
    · simp [List.filter_cons, hhead, ih]
    · have hne : ("password" == kv.1) = false := by
        simp
        exact fun hc => hhead hc.symm
      simp [List.filter_cons, hhead, List.lookup, hne, ih]

/-- Characterization of `setUint` successes: zero for the sentinel,
otherwise exactly the non-empty all-digit strings denoting a value
below `2 ^ 64`. -/
theorem setUint_ok_iff (v : String) (n : Nat) :
    setUint v = Except.ok n ↔
      (v = "-" ∧ n = 0) ∨
      (v ≠ "-" ∧ v.data ≠ [] ∧ (∀ c ∈ v.data, c.isDigit) ∧
        digitsVal v = n ∧ n < 2 ^ 64) := by
  unfold setUint parseUint10
  by_cases h : v = "-"
  · rw [if_pos h]
    constructor
    · intro hok
      injection hok with h0
      exact Or.inl ⟨h, h0.symm⟩
    · rintro (⟨_, hn0⟩ | ⟨hv, _⟩)
      · rw [hn0]
      · exact absurd h hv
  · rw [if_neg h]
    by_cases he : v.data = []
    · rw [if_pos he]
      constructor
      · intro hok
        exact Except.noConfusion hok
      · rintro (⟨hv, _⟩ | ⟨_, hne, _⟩)
        · exact absurd hv h
        · exact absurd he hne
    · rw [if_neg he]
      by_cases hd : v.data.all Char.isDigit
      · rw [if_pos hd]
        by_cases hn : digitsVal v < 2 ^ 64
        · rw [if_pos hn]
          constructor
          · intro hok
            injection hok with hv
            exact Or.inr ⟨h, he, fun c hc => List.all_eq_true.mp hd c hc, hv, hv ▸ hn⟩
          · rintro (⟨hv, _⟩ | ⟨_, _, _, hdv, _⟩)
            · exact absurd hv h
            · rw [hdv]
        · rw [if_neg hn]
          constructor
          · intro hok
            exact Except.noConfusion hok
          · rintro (⟨hv, _⟩ | ⟨_, _, _, hdv, hlt⟩)
            · exact absurd hv h
            · exact absurd (hdv ▸ hlt) hn
      · rw [if_neg hd]
        constructor
        · intro hok
          exact Except.noConfusion hok
        · rintro (⟨hv, _⟩ | ⟨_, _, hall, _, _⟩)
          · exact absurd hv h
          · exact absurd (List.all_eq_true.mpr fun c hc => hall c hc) hd

/-- Claim C6: the string setter stores the empty string for the
sentinel `-` and the literal value otherwise; the unsigned setter
stores zero for `-`, the denoted number for a valid base-10 unsigned
64-bit numeral, and fails with a parse error for every other value. -/
theorem setters_follow_sentinel_contract (v : String) (n : Nat) :
    (setString v = "" ↔ v = "-" ∨ v = "")
    ∧ (v ≠ "-" → setString v = v)
    ∧ setUint "-" = Except.ok 0
    ∧ (setUint v = Except.ok n ↔
        (v = "-" ∧ n = 0) ∨
        (v ≠ "-" ∧ v.data ≠ [] ∧ (∀ c ∈ v.data, c.isDigit) ∧
          digitsVal v = n ∧ n < 2 ^ 64))
    ∧ ((v ≠ "-" ∧ ¬(v.data ≠ [] ∧ (∀ c ∈ v.data, c.isDigit) ∧ digitsVal v < 2 ^ 64)) →
        setUint v = Except.error v) := by
  refine ⟨?_, ?_, by decide, setUint_ok_iff v n, ?_⟩
  · unfold setString
    by_cases h : v = "-" <;> simp [h]
  · intro h
    unfold setString
    rw [if_neg h]
  · rintro ⟨h, hbad⟩
    unfold setUint parseUint10
    rw [if_neg h]
    by_cases he : v.data = []
    · rw [if_pos he]
    · rw [if_neg he]
      by_cases hd : v.data.all Char.isDigit
      · rw [if_pos hd]
        by_cases hn : digitsVal v < 2 ^ 64
        · exact absurd ⟨he, fun c hc => List.all_eq_true.mp hd c hc, hn⟩ hbad
        · rw [if_neg hn]
      · rw [if_neg hd]

/-- Witness for C6 at concrete inputs, using the theorem on both the
success side and the error side. -/
theorem setters_follow_sentinel_contract_witness :
    setString "-" = "" ∧ setUint "42" = Except.ok 42 ∧ setUint "4x2" = Except.error "4x2" :=
  ⟨(setters_follow_sentinel_contract "-" 0).1.mpr (Or.inl rfl),
   (setters_follow_sentinel_contract "42" 42).2.2.2.1.mpr
     (Or.inr ⟨by decide, by decide, by decide, by decide, by decide⟩),
   (setters_follow_sentinel_contract "4x2" 0).2.2.2.2 ⟨by decide, by decide⟩⟩

/-- Claim C5 counterexample: on a capture that does not end with a
newline the executor silently discards the final NON-empty line, so the
result differs from the claimed split (which would keep the line since
there is no trailing empty line to discard). -/
theorem parseOutput_differs_from_claimed_split :
    parseOutput "a" = [] ∧ splitRowsClaimed "a" = [["a"]]
    ∧ parseOutput "a" ≠ splitRowsClaimed "a" := by
  refine ⟨rfl, rfl, by decide⟩

/-- Claim C5 as amended: the executor drops the final line of the
newline-split capture unconditionally; whenever the capture does end in
a trailing empty line (as it always does for tool output, which is
newline-terminated, and for the empty capture), this coincides with the
claimed behaviour: discard exactly one trailing empty line, one
whitespace-split row per remaining line, in order; the empty capture
yields zero rows. -/
theorem parseOutput_rows_spec (s : String)
    (h : (splitLines s).getLast? = some "") :
    parseOutput s = splitRowsClaimed s
    ∧ parseOutput s = ((splitLines s).dropLast).map goFields
    ∧ parseOutput "" = [] := by
  refine ⟨?_, rfl, rfl⟩
  simp [parseOutput, splitRowsClaimed, h]

/-- Witness for C5 applying the amended theorem to a concrete
newline-terminated two-line capture. -/
theorem parseOutput_rows_spec_witness :
    parseOutput "a b\nc\n" = splitRowsClaimed "a b\nc\n" ∧ parseOutput "" = [] :=
  ⟨(parseOutput_rows_spec "a b\nc\n" (by decide)).1,
   (parseOutput_rows_spec "a b\nc\n" (by decide)).2.2⟩

/-- Claim C3 counterexample: the `parseLine` of src/zfs.go lines
134-171 (also part_005 lines 86-123) has no width check, so a
thirteen-field row — whose field count differs from the twelve-entry
property list — produces a fully populated `Info` and no structural
mismatch error. -/
theorem parseLine_accepts_wrong_width_row :
    row13.length ≠ dsPropList.length ∧
    parseLine row13 = some (Except.ok row13Info) :=
  ⟨by decide, rfl⟩

/-- Claim C3 as amended: only the `parseLine` revision of part_000
lines 138-178 checks the row width; there, every row whose field count
differs from the length of the fixed twelve-entry property list fails
with the structural mismatch error and never yields an `Info`. The
revision in src/zfs.go and part_005 performs no such check (see the
counterexample). -/
theorem parseLineChecked_rejects_wrong_width (line : List String)
    (h : line.length ≠ dsPropList.length) :
    parseLineChecked line = some (Except.error widthMismatchMsg)
    ∧ ∀ i, parseLineChecked line ≠ some (Except.ok i) := by
  refine ⟨?_, ?_⟩ <;> simp [parseLineChecked, h]

/-- Witness for C3 applying the amended theorem to a one-field row. -/
theorem parseLineChecked_rejects_wrong_width_witness :
    parseLineChecked ["x"] = some (Except.error widthMismatchMsg) :=
  (parseLineChecked_rejects_wrong_width ["x"] (by decide)).1

/-- Claim C2 counterexample: the error returned by the failing
`zfsStdin` executor (part_005) is the same value for two invocations
with different argument vectors, and it consists of the wrapped error
and the stderr text only — it carries no debug string made of the
program path and the joined arguments. -/
theorem zfsStdin_error_carries_no_debug :
    zfsStdin failEnvC2 none ["send", "tank@a"]
      = (none, some { err := "exit status 1", stderr := "permission denied" })
    ∧ zfsStdin failEnvC2 none ["receive", "tank@b"]
      = (none, some { err := "exit status 1", stderr := "permission denied" })
    ∧ zfsStdin failEnvC2 none ["send", "tank@a"]
      = zfsStdin failEnvC2 none ["receive", "tank@b"] :=
  ⟨rfl, rfl, rfl⟩

/-- Claim C2 as amended: on non-zero exit or spawn failure neither
executor returns captured stdout rows (the rows value is nil). The
older `command.Run` (src/zfs.go) returns an error carrying the captured
stderr and a debug string — the resolved program path followed by the
joined argument vector with its first character sliced off. The newer
`zfsStdin` (part_005) returns an error carrying the captured stderr
only; it has no debug component. -/
theorem executor_failure_result (lookPath : String → String) (env : Env)
    (cmdName : String) (stdin : Option String) (sink : Bool)
    (args : List String) (msg se : String)
    (hOld : env cmdName args stdin = .failure msg se)
    (hNew : env "zfs" args stdin = .failure msg se) :
    commandRun lookPath env cmdName stdin sink args
      = (none, some ⟨msg,
          String.intercalate " "
            [lookPath cmdName, (String.intercalate " " (cmdName :: args)).drop 1],
          se⟩)
    ∧ zfsStdin env stdin args = (none, some ⟨msg, se⟩) := by
  constructor
  · unfold commandRun
    rw [hOld]
  · unfold zfsStdin
    rw [hNew]

/-- Witness for C2 applying the amended theorem to a concrete failing
invocation. -/
theorem executor_failure_result_witness :
    commandRun id failEnvC2 "zfs" none false ["list"]
      = (none, some ⟨"exit status 1", "zfs fs list", "permission denied"⟩)
    ∧ zfsStdin failEnvC2 none ["list"]
      = (none, some ⟨"exit status 1", "permission denied"⟩) :=
  executor_failure_result id failEnvC2 "zfs" none false ["list"]
    "exit status 1" "permission denied" rfl rfl

/-- Claim C9: `GetFilesystem`, `GetSnapshot` and `getProperty` read row
0 (and, for `getProperty`, column 2) of the parsed output without any
bounds check, so when the underlying invocation succeeds with empty
captured output the access is out of bounds — a panic, modelled as
`none` — rather than an error return. -/
theorem row0_access_unchecked (env : Env) (fsName sName key : String)
    (h : ∀ args stdin, env "zfs" args stdin = .success "" "") :
    GetFilesystem env fsName = none
    ∧ GetSnapshot env sName = none
    ∧ getProperty env fsName key = none := by
  have hz : ∀ args, zfs env args = (some [], none) := by
    intro args
    unfold zfs zfsStdin
    rw [h args none]
    rfl
  have hinfo : ∀ t filter depth, infoList env t filter depth = some (.ok []) := by
    intro t filter depth
    unfold infoList
    rw [hz]
    rfl
  refine ⟨?_, ?_, ?_⟩
  · unfold GetFilesystem
    rw [hinfo]
    rfl
  · unfold GetSnapshot
    rw [hinfo]
    rfl
  · unfold getProperty
    rw [hz]
    rfl

/-- Witness for C9: the all-succeeding, empty-output environment makes
all three accessors panic. -/
theorem row0_access_unchecked_witness :
    GetFilesystem emptyOkEnv "tank" = none
    ∧ GetSnapshot emptyOkEnv "tank@s" = none
    ∧ getProperty emptyOkEnv "tank" "mounted" = none :=
  row0_access_unchecked emptyOkEnv "tank" "tank@s" "mounted" (fun _ _ => rfl)

/-- Claim C1: when the underlying get invocation succeeds,
`getPropertyExists` returns the cell value together with an existence
flag that is false exactly when the tool reported the sentinel `-`, it
maps the sentinel to the empty string, and it never returns the
sentinel string itself as the value. -/
theorem getPropertyExists_spec (env : Env) (name key raw : String)
    (rows : List (List String)) (row : List String)
    (hz : zfs env ["get", "-H", key, name] = (some rows, none))
    (h0 : rows.get? 0 = some row) (h2 : row.get? 2 = some raw) :
    getPropertyExists env name key
      = some (Except.ok (if raw = "-" then ("", false) else (raw, true)))
    ∧ ∀ v ex, getPropertyExists env name key = some (Except.ok (v, ex)) →
        ((ex = false ↔ raw = "-") ∧ v ≠ "-" ∧ (raw = "-" → v = "")) := by
  have hmain : getPropertyExists env name key
      = some (Except.ok (if raw = "-" then ("", false) else (raw, true))) := by
    unfold getPropertyExists
    rw [hz]
    rw [List.get?_eq_getElem?] at h0 h2
    simp [h0, h2]
  refine ⟨hmain, ?_⟩
  intro v ex hve
  rw [hmain] at hve
  by_cases hr : raw = "-"
  · rw [if_pos hr] at hve
    simp only [Option.some.injEq, Except.ok.injEq, Prod.mk.injEq] at hve
    obtain ⟨hv, hex⟩ := hve
    subst hv
    subst hex
    exact ⟨by simp [hr], by decide, fun _ => rfl⟩
  · rw [if_neg hr] at hve
    simp only [Option.some.injEq, Except.ok.injEq, Prod.mk.injEq] at hve
    obtain ⟨hv, hex⟩ := hve
    subst hv
    subst hex
    exact ⟨by simp [hr], fun hc => hr hc, fun hc => absurd hc hr⟩

/-- Witness for C1: a concrete get invocation reporting the sentinel
yields the empty value with the exists flag false. -/
theorem getPropertyExists_spec_witness :
    getPropertyExists getOutEnv "tank" "mounted" = some (Except.ok ("", false)) := by
  have h := (getPropertyExists_spec getOutEnv "tank" "mounted" "-"
      [["tank", "mounted", "-", "-"]] ["tank", "mounted", "-", "-"] rfl rfl rfl).1
  simpa using h

/-- Claim C7: `Children` issues a filesystem listing at depth 1
filtered to the own dataset name, and returns exactly the parsed rows
with row 0 (the queried filesystem itself) removed, in order. -/
theorem children_drops_row0 (env : Env) (d : Filesystem)
    (i0 : Info) (rest : List Info)
    (h : infoList env "filesystem" d.info.name 1 = some (Except.ok (i0 :: rest)))
    (hn : d.info.name ≠ "") :
    Children env d = some (Except.ok (rest.map Filesystem.mk))
    ∧ listArgs "filesystem" d.info.name 1
      = ["list", "-Hp", "-t", "filesystem", "-o", dsPropListOptions, "-d", "1",
         d.info.name] := by
  constructor
  · unfold Children
    rw [h]
    rfl
  · unfold listArgs
    rw [if_pos hn]
    rfl

/-- Witness for C7: on a concrete two-row listing (the dataset itself
and one child), `Children` returns exactly the child. -/
theorem children_drops_row0_witness :
    Children listTwoEnv ⟨infoT⟩ = some (Except.ok [Filesystem.mk infoTC])
    ∧ listArgs "filesystem" "t" 1
      = ["list", "-Hp", "-t", "filesystem", "-o", dsPropListOptions, "-d", "1", "t"] :=
  children_drops_row0 listTwoEnv ⟨infoT⟩ infoT [infoTC] rfl (by decide)

/-- Claim C4: a `password` entry in the properties map is intercepted:
the argument vector gains the three encryption options instead of a
plain property, the password doubled and newline-separated becomes the
child input, every remaining map entry is forwarded as a repeated `-o
key=value` argument (none of them is the password entry), and after a
successful create invocation the filesystem is re-fetched by name. -/
theorem createFilesystem_password_intercepted (env : Env) (name pw : String)
    (props : List (String × String))
    (hpw : props.lookup "password" = some pw) :
    (createFilesystemArgs name props).1
      = ["create"] ++ propsSlice (props.filter (fun kv => kv.1 != "password"))
        ++ ["-o", "encryption=on", "-o", "keylocation=prompt", "-o", "keyformat=passphrase"]
        ++ [name]
    ∧ (createFilesystemArgs name props).2 = some (pw ++ "\n" ++ pw)
    ∧ (∀ kv ∈ props.filter (fun kv => kv.1 != "password"), kv.1 ≠ "password")
    ∧ (∀ kv ∈ props.filter (fun kv => kv.1 != "password"),
        (kv.1 ++ "=" ++ kv.2) ∈ (createFilesystemArgs name props).1)
    ∧ (∀ rows, zfsStdin env (createFilesystemArgs name props).2
          (createFilesystemArgs name props).1 = (rows, none) →
        (CreateFilesystem env name props).1 = GetFilesystem env name) := by
  have hargs : (createFilesystemArgs name props).1
      = ["create"] ++ propsSlice (props.filter (fun kv => kv.1 != "password"))
        ++ ["-o", "encryption=on", "-o", "keylocation=prompt", "-o", "keyformat=passphrase"]
        ++ [name] := by
    unfold createFilesystemArgs
    rw [hpw]
    simp [propsSlice_if_eq]
  have hstdin : (createFilesystemArgs name props).2 = some (pw ++ "\n" ++ pw) := by
    unfold createFilesystemArgs
    rw [hpw]
  refine ⟨hargs, hstdin, ?_, ?_, ?_⟩
  · intro kv hkv
    have := (List.mem_filter.mp hkv).2
    simpa using this
  · intro kv hkv
    rw [hargs]
    have hmem := mem_propsSlice _ kv hkv
    simp [hmem]
  · intro rows hsucc
    unfold CreateFilesystem
    rw [hsucc]

/-- Witness for C4 on a concrete map with a password and one ordinary
property, in a succeeding environment. -/
theorem createFilesystem_password_intercepted_witness :
    (createFilesystemArgs "tank/enc" propsW).1
      = ["create", "-o", "compression=on", "-o", "encryption=on",
         "-o", "keylocation=prompt", "-o", "keyformat=passphrase", "tank/enc"]
    ∧ (createFilesystemArgs "tank/enc" propsW).2 = some "secret\nsecret"
    ∧ (CreateFilesystem emptyOkEnv "tank/enc" propsW).1
      = GetFilesystem emptyOkEnv "tank/enc" := by
  have h := createFilesystem_password_intercepted emptyOkEnv "tank/enc" "secret" propsW rfl
  exact ⟨by simpa using h.1, by simpa using h.2.1, h.2.2.2.2 (some []) rfl⟩

/-- Claim C10: `CreateFilesystem` mutates the caller-supplied
properties map: the `password` entry is deleted on the success path and
on the failure path alike (the returned post-state never depends on the
outcome), while every other entry is left unchanged. -/
theorem createFilesystem_mutates_props_map (env : Env) (name : String)
    (props : List (String × String)) (k : String) (hk : k ≠ "password") :
    (CreateFilesystem env name props).2
      = props.filter (fun kv => kv.1 != "password")
    ∧ (CreateFilesystem env name props).2.lookup "password" = none
    ∧ (CreateFilesystem env name props).2.lookup k = props.lookup k := by
  have hsnd : (CreateFilesystem env name props).2
      = props.filter (fun kv => kv.1 != "password") := by
    unfold CreateFilesystem
    rcases hz : zfsStdin env (createFilesystemArgs name props).2
        (createFilesystemArgs name props).1 with ⟨rows, err⟩
    cases err <;> rfl
  refine ⟨hsnd, ?_, ?_⟩
  · rw [hsnd]
    exact lookup_filter_password_none props
  · rw [hsnd]
    exact lookup_filter_ne props k hk

/-- Witness for C10: the concrete map loses its password entry and
keeps the other entry, in a succeeding environment (and, by the
theorem, in any environment). -/
theorem createFilesystem_mutates_props_map_witness :
    (CreateFilesystem emptyOkEnv "tank/x" propsW).2 = [("compression", "on")]
    ∧ (CreateFilesystem emptyOkEnv "tank/x" propsW).2.lookup "password" = none := by
  have h := createFilesystem_mutates_props_map emptyOkEnv "tank/x" propsW
    "compression" (by decide)
  exact ⟨by simpa using h.1, h.2.1⟩

/-- Claim C8: on every exit path of `Send`, `IncrementalSend` and
`ReceiveSnapshot` — success, invocation failure, or the panic inside
the post-receive fetch — the deferred close of the caller-supplied
stream handle runs last, so the event trace always ends with the close
of the respective handle, whatever the environment does. -/
theorem streaming_closes_handles (env : Env) (base d : Snapshot)
    (input : Option String) (name : String) :
    (Send env d).2.getLast? = some Ev.closeOutput
    ∧ (IncrementalSend env base d).2.getLast? = some Ev.closeOutput
    ∧ (ReceiveSnapshot env input name).2.getLast? = some Ev.closeInput := by
  refine ⟨rfl, rfl, ?_⟩
  unfold ReceiveSnapshot
  rcases hz : zfsStdin env input ["receive", name] with ⟨rows, err⟩
  cases err <;> rfl

end GoZfs
